import Mathlib

/-!
Verification of the aspect-ratio mask scaler from `bevy_aspect_ratio_mask`.

The core computation lives in `aspect_ratio_hud_scaler` (src/src/lib.rs,
lines 170-225).  It reads the window surface size and the configured virtual
`Resolution`, and writes: the global `UiScale`, the margins of the single
HUD node tagged `AspectRatioHud`, and the width/height/offset of the four
mask nodes tagged `AspectRatioMaskSide::{Left, Right, Top, Bottom}`.

The embedding models the `f32` arithmetic over `ℚ` (the source performs
only `+ - * / min` on finite values, which rationals model exactly; the
degenerate division-by-zero cases are discussed at the claim about
degenerate surfaces).  Bevy's world is modelled by the `WorldState`
structure holding exactly the pieces of state the system touches: the
optional HUD node, the four mask nodes, and the `UiScale` resource.
-/

namespace BevyAspectMask

/-- `Resolution` resource (src/src/lib.rs lines 97-103): the target virtual
resolution. -/
structure Resolution where
  width : ℚ
  height : ℚ
deriving DecidableEq

/-- The window surface size, `windows.single().unwrap().resolution.size()`
as read at src/src/lib.rs lines 177-178. -/
structure SurfaceSize where
  width : ℚ
  height : ℚ
deriving DecidableEq

/-- Bevy `Val` as used by the source: the scaler writes only `Val::Px`
values, but nodes start out with `Val::Percent`/`Val::Auto` fields. -/
inductive Val where
  | auto : Val
  | px : ℚ → Val
  | percent : ℚ → Val
deriving DecidableEq

/-- Bevy `UiRect`, holding the four margin components of a node. -/
structure UiRect where
  left : Val
  right : Val
  top : Val
  bottom : Val
deriving DecidableEq

/-- The fields of a Bevy `Node` that the scaler reads or writes. -/
structure Node where
  width : Val
  height : Val
  left : Val
  top : Val
  margin : UiRect
deriving DecidableEq

/-- The four mask nodes, one per `AspectRatioMaskSide` variant
(src/src/lib.rs lines 126-131). -/
structure MaskNodes where
  left : Node
  right : Node
  top : Node
  bottom : Node
deriving DecidableEq

/-- The slice of the Bevy world that `aspect_ratio_hud_scaler` touches:
the node of the (at most one) entity tagged `AspectRatioHud`, the four
mask nodes, and the `UiScale` resource. -/
structure WorldState where
  hud : Option Node
  masks : MaskNodes
  uiScale : ℚ
deriving DecidableEq

/-- `scale_x` (src/src/lib.rs line 177). -/
def scale_x (resolution : Resolution) (surface : SurfaceSize) : ℚ :=
  surface.width / resolution.width

/-- `scale_y` (src/src/lib.rs line 178). -/
def scale_y (resolution : Resolution) (surface : SurfaceSize) : ℚ :=
  surface.height / resolution.height

/-- `normalized_width` (src/src/lib.rs line 180). -/
def normalized_width (resolution : Resolution) (surface : SurfaceSize) : ℚ :=
  resolution.width * scale_x resolution surface / scale_y resolution surface

/-- `normalized_height` (src/src/lib.rs line 181). -/
def normalized_height (resolution : Resolution) (surface : SurfaceSize) : ℚ :=
  resolution.height * scale_y resolution surface / scale_x resolution surface

/-- `min_scale` (src/src/lib.rs line 183). -/
def min_scale (resolution : Resolution) (surface : SurfaceSize) : ℚ :=
  min (scale_x resolution surface) (scale_y resolution surface)

/-- `dx` (src/src/lib.rs line 189). -/
def dx (resolution : Resolution) (surface : SurfaceSize) : ℚ :=
  normalized_width resolution surface - resolution.width

/-- `dy` (src/src/lib.rs line 196). -/
def dy (resolution : Resolution) (surface : SurfaceSize) : ℚ :=
  normalized_height resolution surface - resolution.height

/-- The system `aspect_ratio_hud_scaler` (src/src/lib.rs lines 170-225),
as a transition on `WorldState`.  Faithful to the source structure:
the scale ratios are computed first; if the `AspectRatioHud` query has no
single entity the system returns early (changing nothing); otherwise the
HUD margins are written under the `if / else if` pairs of lines 190-201
(the trailing no-op branch mirrors the source, where neither comparison
holds for NaN), the four mask nodes are written (lines 203-222), and
finally `ui_scale.0 = min_scale` (line 224). -/
def aspect_ratio_hud_scaler (resolution : Resolution) (surface : SurfaceSize)
    (world : WorldState) : WorldState :=
  let sx := scale_x resolution surface
  let sy := scale_y resolution surface
  let nw := normalized_width resolution surface
  let nh := normalized_height resolution surface
  let ms := min_scale resolution surface
  match world.hud with
  | none => world
  | some node =>
      let dxv := dx resolution surface
      let node1 :=
        if sx > ms then
          { node with margin := { node.margin with left := Val.px (dxv / 2) } }
        else if sx ≤ ms then
          { node with margin := { node.margin with left := Val.px 0 } }
        else node
      let dyv := dy resolution surface
      let node2 :=
        if sy > ms then
          { node1 with margin := { node1.margin with top := Val.px (dyv / 2) } }
        else if sy ≤ ms then
          { node1 with margin := { node1.margin with top := Val.px 0 } }
        else node1
      let m := world.masks
      let mLeft := { m.left with width := Val.px dxv, left := Val.px (-dxv / 2) }
      let mRight := { m.right with width := Val.px dxv,
                                   left := Val.px (nw - dxv / 2) }
      let mTop := { m.top with height := Val.px dyv, top := Val.px (-dyv / 2) }
      let mBottom := { m.bottom with height := Val.px dyv,
                                     top := Val.px (nh - dyv / 2) }
      { hud := some node2,
        masks := { left := mLeft, right := mRight, top := mTop, bottom := mBottom },
        uiScale := ms }

/-- A HUD node as spawned by `aspect_ratio_hud` with the default 960x540
resolution (src/src/lib.rs lines 246-258): fixed pixel size, everything
else at defaults. -/
def sampleHudNode : Node :=
  { width := Val.px 960, height := Val.px 540, left := Val.auto, top := Val.auto,
    margin := { left := Val.px 0, right := Val.px 0, top := Val.px 0, bottom := Val.px 0 } }

/-- A mask node as spawned for the Left/Right sides by
`aspect_ratio_mask_setup` (src/src/lib.rs lines 266-288). -/
def sampleSideMask : Node :=
  { width := Val.auto, height := Val.percent 100, left := Val.px 0, top := Val.auto,
    margin := { left := Val.px 0, right := Val.px 0, top := Val.px 0, bottom := Val.px 0 } }

/-- A mask node as spawned for the Top/Bottom sides by
`aspect_ratio_mask_setup` (src/src/lib.rs lines 289-311). -/
def sampleBarMask : Node :=
  { width := Val.percent 100, height := Val.auto, left := Val.auto, top := Val.px 0,
    margin := { left := Val.px 0, right := Val.px 0, top := Val.px 0, bottom := Val.px 0 } }

/-- A concrete post-`setup` world: HUD present, the four freshly spawned
mask nodes, and a previously computed `UiScale` of 1. -/
def sampleWorld : WorldState :=
  { hud := some sampleHudNode,
    masks := { left := sampleSideMask, right := sampleSideMask,
               top := sampleBarMask, bottom := sampleBarMask },
    uiScale := 1 }

/-- A concrete world whose `AspectRatioHud` entity is missing. -/
def hudlessWorld : WorldState :=
  { hud := none,
    masks := { left := sampleSideMask, right := sampleSideMask,
               top := sampleBarMask, bottom := sampleBarMask },
    uiScale := 1 }

/-- The transposed configuration used by the symmetry claim: virtual
width and height swapped. -/
def Resolution.transposed (r : Resolution) : Resolution :=
  ⟨r.height, r.width⟩

/-- The transposed surface used by the symmetry claim: surface width and
height swapped. -/
def SurfaceSize.transposed (s : SurfaceSize) : SurfaceSize :=
  ⟨s.height, s.width⟩

/-- Claim C1: for every virtual resolution and surface size with strictly
positive width and height (and the HUD entity present, without which the
system returns before line 224), the scaler sets the uniform UI scale to
exactly `min(scale_x, scale_y)` where `scale_x = surface.width /
virtual_res.width` and `scale_y = surface.height / virtual_res.height`. -/
theorem C1_uniform_scale (resolution : Resolution) (surface : SurfaceSize)
    (world : WorldState) (node : Node)
    (hrw : 0 < resolution.width) (hrh : 0 < resolution.height)
    (hsw : 0 < surface.width) (hsh : 0 < surface.height)
    (hhud : world.hud = some node) :
    (aspect_ratio_hud_scaler resolution surface world).uiScale
      = min (surface.width / resolution.width) (surface.height / resolution.height) := by
  simp [aspect_ratio_hud_scaler, hhud, min_scale, scale_x, scale_y]

/-- Witness for C1 at resolution 960x540 and surface 1280x720. -/
theorem C1_uniform_scale_witness :
    (aspect_ratio_hud_scaler ⟨960, 540⟩ ⟨1280, 720⟩ sampleWorld).uiScale
      = min ((1280 : ℚ) / 960) ((720 : ℚ) / 540) :=
  C1_uniform_scale ⟨960, 540⟩ ⟨1280, 720⟩ sampleWorld sampleHudNode
    (by norm_num) (by norm_num) (by norm_num) (by norm_num) rfl

/-- Claim C2: for every valid input (HUD present), the four mask
rectangles are set exactly as: Left gets width `dx` and left-offset
`-dx/2`; Right gets width `dx` and left-offset `normalized_width - dx/2`;
Top gets height `dy` and top-offset `-dy/2`; Bottom gets height `dy` and
top-offset `normalized_height - dy/2`, with `dx = normalized_width -
virtual_res.width`, `dy = normalized_height - virtual_res.height`,
`normalized_width = virtual_res.width * scale_x / scale_y` and
`normalized_height = virtual_res.height * scale_y / scale_x`. -/
theorem C2_mask_geometry (resolution : Resolution) (surface : SurfaceSize)
    (world : WorldState) (node : Node)
    (hrw : 0 < resolution.width) (hrh : 0 < resolution.height)
    (hsw : 0 < surface.width) (hsh : 0 < surface.height)
    (hhud : world.hud = some node) :
    (aspect_ratio_hud_scaler resolution surface world).masks.left.width
        = Val.px (dx resolution surface)
    ∧ (aspect_ratio_hud_scaler resolution surface world).masks.left.left
        = Val.px (-(dx resolution surface) / 2)
    ∧ (aspect_ratio_hud_scaler resolution surface world).masks.right.width
        = Val.px (dx resolution surface)
    ∧ (aspect_ratio_hud_scaler resolution surface world).masks.right.left
        = Val.px (normalized_width resolution surface - dx resolution surface / 2)
    ∧ (aspect_ratio_hud_scaler resolution surface world).masks.top.height
        = Val.px (dy resolution surface)
    ∧ (aspect_ratio_hud_scaler resolution surface world).masks.top.top
        = Val.px (-(dy resolution surface) / 2)
    ∧ (aspect_ratio_hud_scaler resolution surface world).masks.bottom.height
        = Val.px (dy resolution surface)
    ∧ (aspect_ratio_hud_scaler resolution surface world).masks.bottom.top
        = Val.px (normalized_height resolution surface - dy resolution surface / 2) := by
  simp [aspect_ratio_hud_scaler, hhud]

/-- Witness for C2 at resolution 960x540 and surface 1280x540. -/
theorem C2_mask_geometry_witness :
    (aspect_ratio_hud_scaler ⟨960, 540⟩ ⟨1280, 540⟩ sampleWorld).masks.left.width
        = Val.px (dx ⟨960, 540⟩ ⟨1280, 540⟩)
    ∧ (aspect_ratio_hud_scaler ⟨960, 540⟩ ⟨1280, 540⟩ sampleWorld).masks.left.left
        = Val.px (-(dx ⟨960, 540⟩ ⟨1280, 540⟩) / 2)
    ∧ (aspect_ratio_hud_scaler ⟨960, 540⟩ ⟨1280, 540⟩ sampleWorld).masks.right.width
        = Val.px (dx ⟨960, 540⟩ ⟨1280, 540⟩)
    ∧ (aspect_ratio_hud_scaler ⟨960, 540⟩ ⟨1280, 540⟩ sampleWorld).masks.right.left
        = Val.px (normalized_width ⟨960, 540⟩ ⟨1280, 540⟩ - dx ⟨960, 540⟩ ⟨1280, 540⟩ / 2)
    ∧ (aspect_ratio_hud_scaler ⟨960, 540⟩ ⟨1280, 540⟩ sampleWorld).masks.top.height
        = Val.px (dy ⟨960, 540⟩ ⟨1280, 540⟩)
    ∧ (aspect_ratio_hud_scaler ⟨960, 540⟩ ⟨1280, 540⟩ sampleWorld).masks.top.top
        = Val.px (-(dy ⟨960, 540⟩ ⟨1280, 540⟩) / 2)
    ∧ (aspect_ratio_hud_scaler ⟨960, 540⟩ ⟨1280, 540⟩ sampleWorld).masks.bottom.height
        = Val.px (dy ⟨960, 540⟩ ⟨1280, 540⟩)
    ∧ (aspect_ratio_hud_scaler ⟨960, 540⟩ ⟨1280, 540⟩ sampleWorld).masks.bottom.top
        = Val.px (normalized_height ⟨960, 540⟩ ⟨1280, 540⟩ - dy ⟨960, 540⟩ ⟨1280, 540⟩ / 2) :=
  C2_mask_geometry ⟨960, 540⟩ ⟨1280, 540⟩ sampleWorld sampleHudNode
    (by norm_num) (by norm_num) (by norm_num) (by norm_num) rfl

/-- Claim C3: for every valid input (HUD present), the content node's left
margin equals `dx / 2` when `scale_x > min_scale` and `0` when
`scale_x <= min_scale`, and symmetrically the top margin equals `dy / 2`
when `scale_y > min_scale` and `0` when `scale_y <= min_scale`. -/
theorem C3_content_margins (resolution : Resolution) (surface : SurfaceSize)
    (world : WorldState) (node : Node)
    (hrw : 0 < resolution.width) (hrh : 0 < resolution.height)
    (hsw : 0 < surface.width) (hsh : 0 < surface.height)
    (hhud : world.hud = some node) :
    (scale_x resolution surface > min_scale resolution surface →
      ((aspect_ratio_hud_scaler resolution surface world).hud.map
          (fun n => n.margin.left)) = some (Val.px (dx resolution surface / 2)))
    ∧ (scale_x resolution surface ≤ min_scale resolution surface →
      ((aspect_ratio_hud_scaler resolution surface world).hud.map
          (fun n => n.margin.left)) = some (Val.px 0))
    ∧ (scale_y resolution surface > min_scale resolution surface →
      ((aspect_ratio_hud_scaler resolution surface world).hud.map
          (fun n => n.margin.top)) = some (Val.px (dy resolution surface / 2)))
    ∧ (scale_y resolution surface ≤ min_scale resolution surface →
      ((aspect_ratio_hud_scaler resolution surface world).hud.map
          (fun n => n.margin.top)) = some (Val.px 0)) := by
  refine ⟨fun hx => ?_, fun hx => ?_, fun hy => ?_, fun hy => ?_⟩ <;>
    simp only [aspect_ratio_hud_scaler, hhud] <;>
    rcases lt_or_le (min_scale resolution surface) (scale_y resolution surface) with hy2 | hy2 <;>
    rcases lt_or_le (min_scale resolution surface) (scale_x resolution surface) with hx2 | hx2 <;>
    simp_all [not_lt_of_le, le_of_lt]

/-- Witness for C3 at resolution 960x540 and surface 1280x540
(`scale_x > min_scale` and `scale_y ≤ min_scale` both exercised). -/
theorem C3_content_margins_witness :
    ((scale_x ⟨960, 540⟩ ⟨1280, 540⟩ > min_scale ⟨960, 540⟩ ⟨1280, 540⟩ →
      ((aspect_ratio_hud_scaler ⟨960, 540⟩ ⟨1280, 540⟩ sampleWorld).hud.map
          (fun n => n.margin.left)) = some (Val.px (dx ⟨960, 540⟩ ⟨1280, 540⟩ / 2)))
    ∧ (scale_x ⟨960, 540⟩ ⟨1280, 540⟩ ≤ min_scale ⟨960, 540⟩ ⟨1280, 540⟩ →
      ((aspect_ratio_hud_scaler ⟨960, 540⟩ ⟨1280, 540⟩ sampleWorld).hud.map
          (fun n => n.margin.left)) = some (Val.px 0))
    ∧ (scale_y ⟨960, 540⟩ ⟨1280, 540⟩ > min_scale ⟨960, 540⟩ ⟨1280, 540⟩ →
      ((aspect_ratio_hud_scaler ⟨960, 540⟩ ⟨1280, 540⟩ sampleWorld).hud.map
          (fun n => n.margin.top)) = some (Val.px (dy ⟨960, 540⟩ ⟨1280, 540⟩ / 2)))
    ∧ (scale_y ⟨960, 540⟩ ⟨1280, 540⟩ ≤ min_scale ⟨960, 540⟩ ⟨1280, 540⟩ →
      ((aspect_ratio_hud_scaler ⟨960, 540⟩ ⟨1280, 540⟩ sampleWorld).hud.map
          (fun n => n.margin.top)) = some (Val.px 0))) :=
  C3_content_margins ⟨960, 540⟩ ⟨1280, 540⟩ sampleWorld sampleHudNode
    (by norm_num) (by norm_num) (by norm_num) (by norm_num) rfl

/-- Claim C10: if no entity with the `AspectRatioHud` marker exists when
the scaler runs, the scaler returns early and changes nothing: the four
mask nodes and the global UI scale stay at their previous values. -/
theorem C10_no_hud_early_return (resolution : Resolution) (surface : SurfaceSize)
    (world : WorldState) (hhud : world.hud = none) :
    aspect_ratio_hud_scaler resolution surface world = world := by
  simp [aspect_ratio_hud_scaler, hhud]

/-- Witness for C10 on a concrete hudless world. -/
theorem C10_no_hud_early_return_witness :
    aspect_ratio_hud_scaler ⟨960, 540⟩ ⟨1280, 720⟩ hudlessWorld = hudlessWorld :=
  C10_no_hud_early_return ⟨960, 540⟩ ⟨1280, 720⟩ hudlessWorld rfl

/-- Claim C4, counterexample: the claim says that for every strictly
positive input, EXACTLY one of `dx`, `dy` is `≥ 0` and the other is
`≤ 0`.  At resolution 960x540 and surface 1920x1080 the aspect ratios
match, `dx = dy = 0`, so BOTH are `≥ 0` and neither side of the
exclusive disjunction holds. -/
theorem C4_exactly_one_counterexample :
    ¬ ((0 ≤ dx ⟨960, 540⟩ ⟨1920, 1080⟩ ∧ ¬ 0 ≤ dy ⟨960, 540⟩ ⟨1920, 1080⟩
          ∧ dy ⟨960, 540⟩ ⟨1920, 1080⟩ ≤ 0)
       ∨ (0 ≤ dy ⟨960, 540⟩ ⟨1920, 1080⟩ ∧ ¬ 0 ≤ dx ⟨960, 540⟩ ⟨1920, 1080⟩
          ∧ dx ⟨960, 540⟩ ⟨1920, 1080⟩ ≤ 0)) := by
  have hdx : dx ⟨960, 540⟩ ⟨1920, 1080⟩ = 0 := by
    norm_num [dx, normalized_width, scale_x, scale_y]
  have hdy : dy ⟨960, 540⟩ ⟨1920, 1080⟩ = 0 := by
    norm_num [dy, normalized_height, scale_x, scale_y]
  simp [hdx, hdy]

/-- Claim C4 as amended: for every input with strictly positive virtual
resolution and surface dimensions, one of `dx`, `dy` is `≥ 0` and the
other is `≤ 0` (both are 0 exactly when the two scale ratios coincide,
so the "exactly one" of the original claim fails only on that tie). -/
theorem C4_sign_dichotomy (resolution : Resolution) (surface : SurfaceSize)
    (hrw : 0 < resolution.width) (hrh : 0 < resolution.height)
    (hsw : 0 < surface.width) (hsh : 0 < surface.height) :
    (0 ≤ dx resolution surface ∧ dy resolution surface ≤ 0)
    ∨ (0 ≤ dy resolution surface ∧ dx resolution surface ≤ 0) := by
  have hx : 0 < scale_x resolution surface := div_pos hsw hrw
  have hy : 0 < scale_y resolution surface := div_pos hsh hrh
  rcases le_total (scale_x resolution surface) (scale_y resolution surface) with h | h
  · right
    constructor
    · simp only [dy, normalized_height]
      rw [sub_nonneg, le_div_iff₀ hx]
      exact mul_le_mul_of_nonneg_left h hrh.le
    · simp only [dx, normalized_width]
      rw [sub_nonpos, div_le_iff₀ hy]
      exact mul_le_mul_of_nonneg_left h hrw.le
  · left
    constructor
    · simp only [dx, normalized_width]
      rw [sub_nonneg, le_div_iff₀ hy]
      exact mul_le_mul_of_nonneg_left h hrw.le
    · simp only [dy, normalized_height]
      rw [sub_nonpos, div_le_iff₀ hx]
      exact mul_le_mul_of_nonneg_left h hrh.le

/-- Witness for the amended C4 at resolution 960x540, surface 1280x540. -/
theorem C4_sign_dichotomy_witness :
    (0 ≤ dx ⟨960, 540⟩ ⟨1280, 540⟩ ∧ dy ⟨960, 540⟩ ⟨1280, 540⟩ ≤ 0)
    ∨ (0 ≤ dy ⟨960, 540⟩ ⟨1280, 540⟩ ∧ dx ⟨960, 540⟩ ⟨1280, 540⟩ ≤ 0) :=
  C4_sign_dichotomy ⟨960, 540⟩ ⟨1280, 540⟩
    (by norm_num) (by norm_num) (by norm_num) (by norm_num)

/-- Claim C5, counterexample: the claim says that when the surface reports
non-positive width or height the scaler skips the recomputation, leaving
the previously computed scale unchanged.  The source has no such guard
(the only early return, lines 185-187, is for a missing HUD entity): with
a 0x0 surface it recomputes anyway and overwrites the `UiScale` of 1 held
in `sampleWorld`. -/
theorem C5_skip_counterexample :
    (aspect_ratio_hud_scaler ⟨960, 540⟩ ⟨0, 0⟩ sampleWorld).uiScale
      ≠ sampleWorld.uiScale := by
  norm_num [aspect_ratio_hud_scaler, sampleWorld, min_scale, scale_x, scale_y]

/-- Claim C5 as amended: when the surface reports non-positive dimensions
the scaler does NOT skip: it recomputes and overwrites the scale, margins
and mask geometry from the degenerate ratios (for a 0x0 surface the
uniform scale written is 0 in this exact-arithmetic model; the `f32`
source would produce NaN-tainted geometry there).  The only skipped case
is a missing HUD entity. -/
theorem C5_degenerate_recomputes (resolution : Resolution)
    (world : WorldState) (node : Node)
    (hhud : world.hud = some node) :
    (aspect_ratio_hud_scaler resolution ⟨0, 0⟩ world).uiScale = 0 := by
  simp [aspect_ratio_hud_scaler, hhud, min_scale, scale_x, scale_y]

/-- Witness for the amended C5 on a concrete world with `UiScale` 1. -/
theorem C5_degenerate_recomputes_witness :
    (aspect_ratio_hud_scaler ⟨960, 540⟩ ⟨0, 0⟩ sampleWorld).uiScale = 0 :=
  C5_degenerate_recomputes ⟨960, 540⟩ sampleWorld sampleHudNode rfl

/-- Claim C6: for every positive virtual resolution and surface size whose
aspect ratios match (`surface.width / virtual_res.width = surface.height /
virtual_res.height`), the uniform scale equals that common ratio, all four
mask lengths equal 0, and both content margins equal 0 (HUD present, as
required for the system to write anything). -/
theorem C6_matching_aspect (resolution : Resolution) (surface : SurfaceSize)
    (world : WorldState) (node : Node)
    (hrw : 0 < resolution.width) (hrh : 0 < resolution.height)
    (hsw : 0 < surface.width) (hsh : 0 < surface.height)
    (hratio : surface.width / resolution.width = surface.height / resolution.height)
    (hhud : world.hud = some node) :
    (aspect_ratio_hud_scaler resolution surface world).uiScale
        = surface.width / resolution.width
    ∧ (aspect_ratio_hud_scaler resolution surface world).masks.left.width = Val.px 0
    ∧ (aspect_ratio_hud_scaler resolution surface world).masks.right.width = Val.px 0
    ∧ (aspect_ratio_hud_scaler resolution surface world).masks.top.height = Val.px 0
    ∧ (aspect_ratio_hud_scaler resolution surface world).masks.bottom.height = Val.px 0
    ∧ ((aspect_ratio_hud_scaler resolution surface world).hud.map
        (fun n => n.margin.left)) = some (Val.px 0)
    ∧ ((aspect_ratio_hud_scaler resolution surface world).hud.map
        (fun n => n.margin.top)) = some (Val.px 0) := by
  have hx : 0 < scale_x resolution surface := div_pos hsw hrw
  have hxy : scale_x resolution surface = scale_y resolution surface := by
    simpa [scale_x, scale_y] using hratio
  have hdx : dx resolution surface = 0 := by
    simp only [dx, normalized_width, ← hxy]
    rw [mul_div_assoc, div_self (ne_of_gt hx), mul_one, sub_self]
  have hdy : dy resolution surface = 0 := by
    simp only [dy, normalized_height, ← hxy]
    rw [mul_div_assoc, div_self (ne_of_gt hx), mul_one, sub_self]
  have hms : min_scale resolution surface = scale_x resolution surface := by
    rw [min_scale, ← hxy, min_self]
  refine ⟨?_, ?_, ?_, ?_, ?_, ?_, ?_⟩ <;>
    simp [aspect_ratio_hud_scaler, hhud, hdx, hdy, hms, ← hxy, lt_irrefl, le_refl,
      scale_x]

/-- Witness for C6 at resolution 960x540 and surface 1920x1080. -/
theorem C6_matching_aspect_witness :
    (aspect_ratio_hud_scaler ⟨960, 540⟩ ⟨1920, 1080⟩ sampleWorld).uiScale
        = (1920 : ℚ) / 960
    ∧ (aspect_ratio_hud_scaler ⟨960, 540⟩ ⟨1920, 1080⟩ sampleWorld).masks.left.width = Val.px 0
    ∧ (aspect_ratio_hud_scaler ⟨960, 540⟩ ⟨1920, 1080⟩ sampleWorld).masks.right.width = Val.px 0
    ∧ (aspect_ratio_hud_scaler ⟨960, 540⟩ ⟨1920, 1080⟩ sampleWorld).masks.top.height = Val.px 0
    ∧ (aspect_ratio_hud_scaler ⟨960, 540⟩ ⟨1920, 1080⟩ sampleWorld).masks.bottom.height = Val.px 0
    ∧ ((aspect_ratio_hud_scaler ⟨960, 540⟩ ⟨1920, 1080⟩ sampleWorld).hud.map
        (fun n => n.margin.left)) = some (Val.px 0)
    ∧ ((aspect_ratio_hud_scaler ⟨960, 540⟩ ⟨1920, 1080⟩ sampleWorld).hud.map
        (fun n => n.margin.top)) = some (Val.px 0) :=
  C6_matching_aspect ⟨960, 540⟩ ⟨1920, 1080⟩ sampleWorld sampleHudNode
    (by norm_num) (by norm_num) (by norm_num) (by norm_num) (by norm_num) rfl

/-- Claim C7, counterexample: the claim says the Top and Bottom mask
lengths are 0 for resolution 960x540 and surface 1280x540.  The source
(lines 213-220) writes `Val::Px(dy)` with no clamp, and there
`dy = 540 * 1 / (4/3) - 540 = -135`, not 0. -/
theorem C7_top_mask_counterexample :
    (aspect_ratio_hud_scaler ⟨960, 540⟩ ⟨1280, 540⟩ sampleWorld).masks.top.height
      ≠ Val.px 0 := by
  have hdy : dy ⟨960, 540⟩ ⟨1280, 540⟩ = -135 := by
    norm_num [dy, normalized_height, scale_x, scale_y]
  simp [aspect_ratio_hud_scaler, sampleWorld, hdy]

/-- Claim C7 as amended: for resolution 960x540 and surface 1280x540 the
scaler produces `uniform_scale = 1`, `normalized_width = 1280`,
`dx = 320`, Left mask width 320 with offset -160, Right mask width 320
with offset 1120, content margin left 160 and top 0 — but the Top and
Bottom mask heights are set to `dy = -135` (a negative stored length, not
0; it is only the rendered bar that degenerates). -/
theorem C7_scenario_wide_surface :
    (aspect_ratio_hud_scaler ⟨960, 540⟩ ⟨1280, 540⟩ sampleWorld).uiScale = 1
    ∧ normalized_width ⟨960, 540⟩ ⟨1280, 540⟩ = 1280
    ∧ dx ⟨960, 540⟩ ⟨1280, 540⟩ = 320
    ∧ (aspect_ratio_hud_scaler ⟨960, 540⟩ ⟨1280, 540⟩ sampleWorld).masks.left.width
        = Val.px 320
    ∧ (aspect_ratio_hud_scaler ⟨960, 540⟩ ⟨1280, 540⟩ sampleWorld).masks.left.left
        = Val.px (-160)
    ∧ (aspect_ratio_hud_scaler ⟨960, 540⟩ ⟨1280, 540⟩ sampleWorld).masks.right.width
        = Val.px 320
    ∧ (aspect_ratio_hud_scaler ⟨960, 540⟩ ⟨1280, 540⟩ sampleWorld).masks.right.left
        = Val.px 1120
    ∧ (aspect_ratio_hud_scaler ⟨960, 540⟩ ⟨1280, 540⟩ sampleWorld).masks.top.height
        = Val.px (-135)
    ∧ (aspect_ratio_hud_scaler ⟨960, 540⟩ ⟨1280, 540⟩ sampleWorld).masks.bottom.height
        = Val.px (-135)
    ∧ ((aspect_ratio_hud_scaler ⟨960, 540⟩ ⟨1280, 540⟩ sampleWorld).hud.map
        (fun n => n.margin.left)) = some (Val.px 160)
    ∧ ((aspect_ratio_hud_scaler ⟨960, 540⟩ ⟨1280, 540⟩ sampleWorld).hud.map
        (fun n => n.margin.top)) = some (Val.px 0) := by
  have hsx : scale_x ⟨960, 540⟩ ⟨1280, 540⟩ = 4 / 3 := by norm_num [scale_x]
  have hsy : scale_y ⟨960, 540⟩ ⟨1280, 540⟩ = 1 := by norm_num [scale_y]
  have hms : min_scale ⟨960, 540⟩ ⟨1280, 540⟩ = 1 := by
    rw [min_scale, hsx, hsy]
    exact min_eq_right (by norm_num)
  have hnw : normalized_width ⟨960, 540⟩ ⟨1280, 540⟩ = 1280 := by
    rw [normalized_width, hsx, hsy]
    norm_num
  have hnh : normalized_height ⟨960, 540⟩ ⟨1280, 540⟩ = 405 := by
    rw [normalized_height, hsx, hsy]
    norm_num
  have hdx : dx ⟨960, 540⟩ ⟨1280, 540⟩ = 320 := by
    rw [dx, hnw]
    norm_num
  have hdy : dy ⟨960, 540⟩ ⟨1280, 540⟩ = -135 := by
    rw [dy, hnh]
    norm_num
  refine ⟨?_, hnw, hdx, ?_, ?_, ?_, ?_, ?_, ?_, ?_, ?_⟩ <;>
    norm_num [aspect_ratio_hud_scaler, sampleWorld, hsx, hsy, hdx, hdy, hnw, hnh, hms]

/-- Claim C8: for every valid input (HUD present), transposing the
configuration — swapping surface width with height and virtual width
with height — swaps which mask pair (Left/Right versus Top/Bottom)
receives the computed lengths and swaps the left and top margins, while
the uniform scale is still `min(scale_x, scale_y)` of the transposed
ratios (which is the same value as before the transposition). -/
theorem C8_transpose_symmetry (resolution : Resolution) (surface : SurfaceSize)
    (world : WorldState) (node : Node)
    (hrw : 0 < resolution.width) (hrh : 0 < resolution.height)
    (hsw : 0 < surface.width) (hsh : 0 < surface.height)
    (hhud : world.hud = some node) :
    (aspect_ratio_hud_scaler resolution.transposed surface.transposed world).uiScale
        = min (scale_x resolution.transposed surface.transposed)
              (scale_y resolution.transposed surface.transposed)
    ∧ (aspect_ratio_hud_scaler resolution.transposed surface.transposed world).uiScale
        = (aspect_ratio_hud_scaler resolution surface world).uiScale
    ∧ (aspect_ratio_hud_scaler resolution.transposed surface.transposed world).masks.left.width
        = (aspect_ratio_hud_scaler resolution surface world).masks.top.height
    ∧ (aspect_ratio_hud_scaler resolution.transposed surface.transposed world).masks.left.left
        = (aspect_ratio_hud_scaler resolution surface world).masks.top.top
    ∧ (aspect_ratio_hud_scaler resolution.transposed surface.transposed world).masks.right.width
        = (aspect_ratio_hud_scaler resolution surface world).masks.bottom.height
    ∧ (aspect_ratio_hud_scaler resolution.transposed surface.transposed world).masks.right.left
        = (aspect_ratio_hud_scaler resolution surface world).masks.bottom.top
    ∧ (aspect_ratio_hud_scaler resolution.transposed surface.transposed world).masks.top.height
        = (aspect_ratio_hud_scaler resolution surface world).masks.left.width
    ∧ (aspect_ratio_hud_scaler resolution.transposed surface.transposed world).masks.top.top
        = (aspect_ratio_hud_scaler resolution surface world).masks.left.left
    ∧ (aspect_ratio_hud_scaler resolution.transposed surface.transposed world).masks.bottom.height
        = (aspect_ratio_hud_scaler resolution surface world).masks.right.width
    ∧ (aspect_ratio_hud_scaler resolution.transposed surface.transposed world).masks.bottom.top
        = (aspect_ratio_hud_scaler resolution surface world).masks.right.left
    ∧ ((aspect_ratio_hud_scaler resolution.transposed surface.transposed world).hud.map
        (fun n => n.margin.left))
        = ((aspect_ratio_hud_scaler resolution surface world).hud.map
            (fun n => n.margin.top))
    ∧ ((aspect_ratio_hud_scaler resolution.transposed surface.transposed world).hud.map
        (fun n => n.margin.top))
        = ((aspect_ratio_hud_scaler resolution surface world).hud.map
            (fun n => n.margin.left)) := by
  have hsx : scale_x resolution.transposed surface.transposed = scale_y resolution surface := rfl
  have hsy : scale_y resolution.transposed surface.transposed = scale_x resolution surface := rfl
  have hnw : normalized_width resolution.transposed surface.transposed
      = normalized_height resolution surface := rfl
  have hnh : normalized_height resolution.transposed surface.transposed
      = normalized_width resolution surface := rfl
  have hdx : dx resolution.transposed surface.transposed = dy resolution surface := rfl
  have hdy : dy resolution.transposed surface.transposed = dx resolution surface := rfl
  have hms : min_scale resolution.transposed surface.transposed
      = min_scale resolution surface := min_comm _ _
  refine ⟨?_, ?_⟩
  · simp [aspect_ratio_hud_scaler, hhud, min_scale]
  · rcases lt_or_le (min_scale resolution surface) (scale_x resolution surface) with hx | hx
    · rcases lt_or_le (min_scale resolution surface) (scale_y resolution surface) with hy | hy
      · simp [aspect_ratio_hud_scaler, hhud, hsx, hsy, hnw, hnh, hdx, hdy, hms, hx, hy]
      · simp [aspect_ratio_hud_scaler, hhud, hsx, hsy, hnw, hnh, hdx, hdy, hms, hx, hy,
          not_lt.mpr hy]
    · rcases lt_or_le (min_scale resolution surface) (scale_y resolution surface) with hy | hy
      · simp [aspect_ratio_hud_scaler, hhud, hsx, hsy, hnw, hnh, hdx, hdy, hms, hx, hy,
          not_lt.mpr hx]
      · simp [aspect_ratio_hud_scaler, hhud, hsx, hsy, hnw, hnh, hdx, hdy, hms, hx, hy,
          not_lt.mpr hx, not_lt.mpr hy]

/-- Witness for C8 at resolution 960x540 and surface 1280x720. -/
theorem C8_transpose_symmetry_witness :
    (aspect_ratio_hud_scaler (Resolution.transposed ⟨960, 540⟩)
        (SurfaceSize.transposed ⟨1280, 720⟩) sampleWorld).uiScale
        = min (scale_x (Resolution.transposed ⟨960, 540⟩) (SurfaceSize.transposed ⟨1280, 720⟩))
              (scale_y (Resolution.transposed ⟨960, 540⟩) (SurfaceSize.transposed ⟨1280, 720⟩))
    ∧ (aspect_ratio_hud_scaler (Resolution.transposed ⟨960, 540⟩)
        (SurfaceSize.transposed ⟨1280, 720⟩) sampleWorld).uiScale
        = (aspect_ratio_hud_scaler ⟨960, 540⟩ ⟨1280, 720⟩ sampleWorld).uiScale
    ∧ (aspect_ratio_hud_scaler (Resolution.transposed ⟨960, 540⟩)
        (SurfaceSize.transposed ⟨1280, 720⟩) sampleWorld).masks.left.width
        = (aspect_ratio_hud_scaler ⟨960, 540⟩ ⟨1280, 720⟩ sampleWorld).masks.top.height
    ∧ (aspect_ratio_hud_scaler (Resolution.transposed ⟨960, 540⟩)
        (SurfaceSize.transposed ⟨1280, 720⟩) sampleWorld).masks.left.left
        = (aspect_ratio_hud_scaler ⟨960, 540⟩ ⟨1280, 720⟩ sampleWorld).masks.top.top
    ∧ (aspect_ratio_hud_scaler (Resolution.transposed ⟨960, 540⟩)
        (SurfaceSize.transposed ⟨1280, 720⟩) sampleWorld).masks.right.width
        = (aspect_ratio_hud_scaler ⟨960, 540⟩ ⟨1280, 720⟩ sampleWorld).masks.bottom.height
    ∧ (aspect_ratio_hud_scaler (Resolution.transposed ⟨960, 540⟩)
        (SurfaceSize.transposed ⟨1280, 720⟩) sampleWorld).masks.right.left
        = (aspect_ratio_hud_scaler ⟨960, 540⟩ ⟨1280, 720⟩ sampleWorld).masks.bottom.top
    ∧ (aspect_ratio_hud_scaler (Resolution.transposed ⟨960, 540⟩)
        (SurfaceSize.transposed ⟨1280, 720⟩) sampleWorld).masks.top.height
        = (aspect_ratio_hud_scaler ⟨960, 540⟩ ⟨1280, 720⟩ sampleWorld).masks.left.width
    ∧ (aspect_ratio_hud_scaler (Resolution.transposed ⟨960, 540⟩)
        (SurfaceSize.transposed ⟨1280, 720⟩) sampleWorld).masks.top.top
        = (aspect_ratio_hud_scaler ⟨960, 540⟩ ⟨1280, 720⟩ sampleWorld).masks.left.left
    ∧ (aspect_ratio_hud_scaler (Resolution.transposed ⟨960, 540⟩)
        (SurfaceSize.transposed ⟨1280, 720⟩) sampleWorld).masks.bottom.height
        = (aspect_ratio_hud_scaler ⟨960, 540⟩ ⟨1280, 720⟩ sampleWorld).masks.right.width
    ∧ (aspect_ratio_hud_scaler (Resolution.transposed ⟨960, 540⟩)
        (SurfaceSize.transposed ⟨1280, 720⟩) sampleWorld).masks.bottom.top
        = (aspect_ratio_hud_scaler ⟨960, 540⟩ ⟨1280, 720⟩ sampleWorld).masks.right.left
    ∧ ((aspect_ratio_hud_scaler (Resolution.transposed ⟨960, 540⟩)
        (SurfaceSize.transposed ⟨1280, 720⟩) sampleWorld).hud.map
        (fun n => n.margin.left))
        = ((aspect_ratio_hud_scaler ⟨960, 540⟩ ⟨1280, 720⟩ sampleWorld).hud.map
            (fun n => n.margin.top))
    ∧ ((aspect_ratio_hud_scaler (Resolution.transposed ⟨960, 540⟩)
        (SurfaceSize.transposed ⟨1280, 720⟩) sampleWorld).hud.map
        (fun n => n.margin.top))
        = ((aspect_ratio_hud_scaler ⟨960, 540⟩ ⟨1280, 720⟩ sampleWorld).hud.map
            (fun n => n.margin.left)) :=
  C8_transpose_symmetry ⟨960, 540⟩ ⟨1280, 720⟩ sampleWorld sampleHudNode
    (by norm_num) (by norm_num) (by norm_num) (by norm_num) rfl

/-- Claim C9: the scaler is deterministic and stateless — for one virtual
resolution and surface size, any two invocations (here: from any two
world states in which the HUD entity exists) produce the same uniform
scale, the same content margins, and the same written mask geometry; no
hidden state influences the computed result. -/
theorem C9_deterministic_stateless (resolution : Resolution) (surface : SurfaceSize)
    (w₁ w₂ : WorldState) (n₁ n₂ : Node)
    (h₁ : w₁.hud = some n₁) (h₂ : w₂.hud = some n₂) :
    (aspect_ratio_hud_scaler resolution surface w₁).uiScale
        = (aspect_ratio_hud_scaler resolution surface w₂).uiScale
    ∧ ((aspect_ratio_hud_scaler resolution surface w₁).hud.map (fun n => n.margin.left))
        = ((aspect_ratio_hud_scaler resolution surface w₂).hud.map (fun n => n.margin.left))
    ∧ ((aspect_ratio_hud_scaler resolution surface w₁).hud.map (fun n => n.margin.top))
        = ((aspect_ratio_hud_scaler resolution surface w₂).hud.map (fun n => n.margin.top))
    ∧ (aspect_ratio_hud_scaler resolution surface w₁).masks.left.width
        = (aspect_ratio_hud_scaler resolution surface w₂).masks.left.width
    ∧ (aspect_ratio_hud_scaler resolution surface w₁).masks.left.left
        = (aspect_ratio_hud_scaler resolution surface w₂).masks.left.left
    ∧ (aspect_ratio_hud_scaler resolution surface w₁).masks.right.width
        = (aspect_ratio_hud_scaler resolution surface w₂).masks.right.width
    ∧ (aspect_ratio_hud_scaler resolution surface w₁).masks.right.left
        = (aspect_ratio_hud_scaler resolution surface w₂).masks.right.left
    ∧ (aspect_ratio_hud_scaler resolution surface w₁).masks.top.height
        = (aspect_ratio_hud_scaler resolution surface w₂).masks.top.height
    ∧ (aspect_ratio_hud_scaler resolution surface w₁).masks.top.top
        = (aspect_ratio_hud_scaler resolution surface w₂).masks.top.top
    ∧ (aspect_ratio_hud_scaler resolution surface w₁).masks.bottom.height
        = (aspect_ratio_hud_scaler resolution surface w₂).masks.bottom.height
    ∧ (aspect_ratio_hud_scaler resolution surface w₁).masks.bottom.top
        = (aspect_ratio_hud_scaler resolution surface w₂).masks.bottom.top := by
  rcases lt_or_le (min_scale resolution surface) (scale_x resolution surface) with hx | hx
  · rcases lt_or_le (min_scale resolution surface) (scale_y resolution surface) with hy | hy
    · simp [aspect_ratio_hud_scaler, h₁, h₂, hx, hy]
    · simp [aspect_ratio_hud_scaler, h₁, h₂, hx, hy, not_lt.mpr hy]
  · rcases lt_or_le (min_scale resolution surface) (scale_y resolution surface) with hy | hy
    · simp [aspect_ratio_hud_scaler, h₁, h₂, hx, hy, not_lt.mpr hx]
    · simp [aspect_ratio_hud_scaler, h₁, h₂, hx, hy, not_lt.mpr hx, not_lt.mpr hy]

/-- Witness for C9: two distinct concrete worlds (different previous
`UiScale` and mask geometry) produce the same computed outputs. -/
theorem C9_deterministic_stateless_witness :
    (aspect_ratio_hud_scaler ⟨960, 540⟩ ⟨1280, 720⟩ sampleWorld).uiScale
        = (aspect_ratio_hud_scaler ⟨960, 540⟩ ⟨1280, 720⟩
            { sampleWorld with uiScale := 7 }).uiScale
    ∧ ((aspect_ratio_hud_scaler ⟨960, 540⟩ ⟨1280, 720⟩ sampleWorld).hud.map
        (fun n => n.margin.left))
        = ((aspect_ratio_hud_scaler ⟨960, 540⟩ ⟨1280, 720⟩
            { sampleWorld with uiScale := 7 }).hud.map (fun n => n.margin.left))
    ∧ ((aspect_ratio_hud_scaler ⟨960, 540⟩ ⟨1280, 720⟩ sampleWorld).hud.map
        (fun n => n.margin.top))
        = ((aspect_ratio_hud_scaler ⟨960, 540⟩ ⟨1280, 720⟩
            { sampleWorld with uiScale := 7 }).hud.map (fun n => n.margin.top))
    ∧ (aspect_ratio_hud_scaler ⟨960, 540⟩ ⟨1280, 720⟩ sampleWorld).masks.left.width
        = (aspect_ratio_hud_scaler ⟨960, 540⟩ ⟨1280, 720⟩
            { sampleWorld with uiScale := 7 }).masks.left.width
    ∧ (aspect_ratio_hud_scaler ⟨960, 540⟩ ⟨1280, 720⟩ sampleWorld).masks.left.left
        = (aspect_ratio_hud_scaler ⟨960, 540⟩ ⟨1280, 720⟩
            { sampleWorld with uiScale := 7 }).masks.left.left
    ∧ (aspect_ratio_hud_scaler ⟨960, 540⟩ ⟨1280, 720⟩ sampleWorld).masks.right.width
        = (aspect_ratio_hud_scaler ⟨960, 540⟩ ⟨1280, 720⟩
            { sampleWorld with uiScale := 7 }).masks.right.width
    ∧ (aspect_ratio_hud_scaler ⟨960, 540⟩ ⟨1280, 720⟩ sampleWorld).masks.right.left
        = (aspect_ratio_hud_scaler ⟨960, 540⟩ ⟨1280, 720⟩
            { sampleWorld with uiScale := 7 }).masks.right.left
    ∧ (aspect_ratio_hud_scaler ⟨960, 540⟩ ⟨1280, 720⟩ sampleWorld).masks.top.height
        = (aspect_ratio_hud_scaler ⟨960, 540⟩ ⟨1280, 720⟩
            { sampleWorld with uiScale := 7 }).masks.top.height
    ∧ (aspect_ratio_hud_scaler ⟨960, 540⟩ ⟨1280, 720⟩ sampleWorld).masks.top.top
        = (aspect_ratio_hud_scaler ⟨960, 540⟩ ⟨1280, 720⟩
            { sampleWorld with uiScale := 7 }).masks.top.top
    ∧ (aspect_ratio_hud_scaler ⟨960, 540⟩ ⟨1280, 720⟩ sampleWorld).masks.bottom.height
        = (aspect_ratio_hud_scaler ⟨960, 540⟩ ⟨1280, 720⟩
            { sampleWorld with uiScale := 7 }).masks.bottom.height
    ∧ (aspect_ratio_hud_scaler ⟨960, 540⟩ ⟨1280, 720⟩ sampleWorld).masks.bottom.top
        = (aspect_ratio_hud_scaler ⟨960, 540⟩ ⟨1280, 720⟩
            { sampleWorld with uiScale := 7 }).masks.bottom.top :=
  C9_deterministic_stateless ⟨960, 540⟩ ⟨1280, 720⟩ sampleWorld
    { sampleWorld with uiScale := 7 } sampleHudNode sampleHudNode rfl rfl

end BevyAspectMask
